import Mathlib

/-!
Shallow embedding of the service-usage audit scripts `src/newtest.py` and
`src/test.py`: the service-name normalizer, the approved-service catalog,
and the three-way set reconciliation, together with proofs of the spec's
claims about them.

Python strings are modelled as Lean `String` (a list of characters);
Python's `str.lower()` is modelled by mapping `Char.toLower`, which agrees
with Python on the ASCII range relevant to every rule-table and catalog
entry.  Python's `str.replace(pat, "")` (remove every non-overlapping
occurrence, left to right) is implemented by fuel recursion so that it
reduces inside the kernel.
-/

/-- The suffix removed by `newtest.py` line 106: `".amazonaws.com"`. -/
def amazonSuffix : List Char := ".amazonaws.com".data

/-- Remove every non-overlapping occurrence of `amazonSuffix`, scanning left to
right, exactly as Python's `eventSource.replace(".amazonaws.com", "")`.
The `Nat` argument is fuel; `removeAmazonAux s.length s` always has enough
fuel because every step consumes at least one character. -/
def removeAmazonAux : Nat → List Char → List Char
  | 0, s => s
  | _ + 1, [] => []
  | fuel + 1, c :: rest =>
    if amazonSuffix.isPrefixOf (c :: rest) then
      removeAmazonAux fuel (List.drop (amazonSuffix.length - 1) rest)
    else
      c :: removeAmazonAux fuel rest

/-- Python `s.replace(".amazonaws.com", "")` on a string. -/
def pyStripSuffix (s : String) : String := ⟨removeAmazonAux s.data.length s.data⟩

/-- Python `s.lower()`, restricted to ASCII case mapping (`Char.toLower`),
which matches Python on all characters occurring in the rule table and
catalog. -/
def pyLower (s : String) : String := ⟨s.data.map Char.toLower⟩

/-- Line 106 of `newtest.py`:
`service = eventSource.replace(".amazonaws.com", "").lower()`. -/
def stripLower (s : String) : String := pyLower (pyStripSuffix s)

/-- The approved-service catalog of `newtest.py` lines 13-26, in source order. -/
def approved_services : List String := [
  "ACM", "ACMPCA", "AccessAnalyzer", "ApiGateway", "ApiGatewayV2",
  "AppConfig", "AppStream", "Athena", "AuditManager", "AutoScaling",
  "Backup", "Batch", "Cassandra", "CloudFormation", "CloudFront",
  "CloudTrail", "CloudWatch", "Cloud9", "CodeDeploy", "Config",
  "DynamoDB", "EC2", "ECR", "ECS", "EFS", "ElasticLoadBalancingV2",
  "EventSchemas", "Events", "Glue", "GuardDuty", "IAM", "InspectorV2",
  "KMS", "Kinesis", "KinesisAnalyticsV2", "KinesisFirehose", "Lambda",
  "MSK", "NetworkFirewall", "NetworkManager", "OpenSearch", "QuickSight",
  "RDS", "Redshift", "Route53", "Route53Resolver", "S3", "SES", "SNS",
  "SQS", "SSM", "SecretsManager", "ServiceDiscovery", "StepFunctions",
  "WAFv2", "Organizations", "ResourceGroups", "Support", "TransferFamily",
  "FSx", "CloudShell"]

/-- The rule table of `newtest.py` lines 29-101, as a key-value list in the
dictionary's insertion order (Python dictionaries iterate in insertion
order, which is what the prefix scan of lines 113-115 relies on). -/
def service_prefixes : List (String × String) := [
  ("acm", "ACM"),
  ("acm-pca", "ACMPCA"),
  ("access-analyzer", "AccessAnalyzer"),
  ("apigateway", "ApiGateway"),
  ("execute-api", "ApiGateway"),
  ("appconfig", "AppConfig"),
  ("appstream2", "AppStream"),
  ("athena", "Athena"),
  ("auditmanager", "AuditManager"),
  ("autoscaling", "AutoScaling"),
  ("backup", "Backup"),
  ("batch", "Batch"),
  ("cassandra", "Cassandra"),
  ("cloudformation", "CloudFormation"),
  ("cloudfront", "CloudFront"),
  ("cloudtrail", "CloudTrail"),
  ("cloudwatch", "CloudWatch"),
  ("monitoring", "CloudWatch"),
  ("logs", "CloudWatch"),
  ("cloud9", "Cloud9"),
  ("codedeploy", "CodeDeploy"),
  ("config", "Config"),
  ("dynamodb", "DynamoDB"),
  ("ec2", "EC2"),
  ("elasticloadbalancing", "EC2"),
  ("ecr", "ECR"),
  ("ecs", "ECS"),
  ("elasticfilesystem", "EFS"),
  ("efs", "EFS"),
  ("schemas", "EventSchemas"),
  ("events", "Events"),
  ("glue", "Glue"),
  ("guardduty", "GuardDuty"),
  ("iam", "IAM"),
  ("sts", "IAM"),
  ("signin", "IAM"),
  ("rolesanywhere", "IAM"),
  ("inspector2", "InspectorV2"),
  ("kms", "KMS"),
  ("kinesis", "Kinesis"),
  ("kinesisanalytics", "KinesisAnalyticsV2"),
  ("analytics", "KinesisAnalyticsV2"),
  ("firehose", "KinesisFirehose"),
  ("lambda", "Lambda"),
  ("kafka", "MSK"),
  ("network-firewall", "NetworkFirewall"),
  ("networkmanager", "NetworkManager"),
  ("es", "OpenSearch"),
  ("aoss", "OpenSearch"),
  ("quicksight", "QuickSight"),
  ("rds", "RDS"),
  ("redshift", "Redshift"),
  ("route53", "Route53"),
  ("route53resolver", "Route53Resolver"),
  ("s3", "S3"),
  ("ses", "SES"),
  ("sns", "SNS"),
  ("sqs", "SQS"),
  ("ssm", "SSM"),
  ("secretsmanager", "SecretsManager"),
  ("servicediscovery", "ServiceDiscovery"),
  ("states", "StepFunctions"),
  ("wafv2", "WAFv2"),
  ("waf-regional", "WAFv2"),
  ("organizations", "Organizations"),
  ("resource-groups", "ResourceGroups"),
  ("support", "Support"),
  ("transfer", "TransferFamily"),
  ("fsx", "FSx"),
  ("cloudshell", "CloudShell"),
  ("q", "Q")]

/-- Python's `service in table` / `table[service]` on a dictionary with the
given (unique) keys: the entry whose key equals `s`. -/
def findExactIn (table : List (String × String)) (s : String) :
    Option (String × String) :=
  table.find? (fun r => r.1 == s)

/-- The prefix scan of `newtest.py` lines 113-115: the first entry, in table
order, whose key is a prefix of `s` (Python's `service.startswith(prefix)`). -/
def findStartIn (table : List (String × String)) (s : String) :
    Option (String × String) :=
  table.find? (fun r => r.1.data.isPrefixOf s.data)

/-- `normalize_eventSource` of `newtest.py` lines 103-118, parameterized by
the rule table: strip the suffix and lower-case, return the exact-match
value if the key is present, otherwise the value of the first rule whose
key is a prefix, otherwise the stripped lower-cased string itself. -/
def normalizeWith (table : List (String × String)) (eventSource : String) :
    String :=
  let service := stripLower eventSource
  match findExactIn table service with
  | some r => r.2
  | none =>
    match findStartIn table service with
    | some r => r.2
    | none => service

/-- `normalize_eventSource` with the script's own rule table. -/
def normalize_eventSource (eventSource : String) : String :=
  normalizeWith service_prefixes eventSource

/-- Line 204 of `newtest.py`: `approved_services_set = set(approved_services)`. -/
def approved_services_set : Finset String := approved_services.toFinset

/-- The result-ingestion loop of `newtest.py` lines 195-201, parameterized by
the rule table: every row value other than the header `"eventsource"` is
normalized and added to the `services_in_use` set. -/
def ingestWith (table : List (String × String)) (rows : List String) :
    Finset String :=
  ((rows.filter (fun r => r != "eventsource")).map (normalizeWith table)).toFinset

/-- Ingestion with the script's own rule table. -/
def ingest (rows : List String) : Finset String :=
  ingestWith service_prefixes rows

/-- The reconciliation of `newtest.py` lines 205-207:
`approved_in_use = services_in_use.intersection(approved_services_set)`,
`unapproved_in_use = {s for s in services_in_use if s not in approved_services_set}`,
`not_in_use = approved_services_set - approved_in_use`.
The triple is returned as (approvedInUse, approvedNotInUse, unapprovedInUse). -/
def classify (observed approvedSet : Finset String) :
    Finset String × Finset String × Finset String :=
  let approved_in_use := observed ∩ approvedSet
  let unapproved_in_use := observed.filter (fun s => s ∉ approvedSet)
  let not_in_use := approvedSet \ approved_in_use
  (approved_in_use, not_in_use, unapproved_in_use)

/-- The whole classification pass of `newtest.py` lines 194-207 with the rule
table and catalog threaded as explicit state: the pass only reads the two
tables (lines 109-115 and 204), it contains no assignment to either, so the
state component of the result is the input state. -/
def newtestPass (tables : List (String × String) × List String)
    (rows : List String) :
    (List (String × String) × List String) ×
      (Finset String × Finset String × Finset String) :=
  let observed := ingestWith tables.1 rows
  ((tables.1, tables.2), classify observed tables.2.toFinset)

/-- The approved-service catalog of `src/test.py` line 10 (55 entries of the
form `AWS::Name`). -/
def testpy_approved_services : List String := [
  "AWS::ACM", "AWS::ACMPCA", "AWS::AccessAnalyzer", "AWS::ApiGateway",
  "AWS::ApiGatewayV2", "AWS::AppConfig", "AWS::AppStream", "AWS::Athena",
  "AWS::AuditManager", "AWS::AutoScaling", "AWS::Backup", "AWS::Batch",
  "AWS::Cassandra", "AWS::CloudFormation", "AWS::CloudFront",
  "AWS::CloudTrail", "AWS::CloudWatch", "AWS::Cloud9", "AWS::CodeDeploy",
  "AWS::Config", "AWS::DynamoDB", "AWS::EC2", "AWS::ECR", "AWS::ECS",
  "AWS::EFS", "AWS::ElasticLoadBalancingV2", "AWS::EventSchemas",
  "AWS::Events", "AWS::Glue", "AWS::GuardDuty", "AWS::IAM",
  "AWS::InspectorV2", "AWS::KMS", "AWS::Kinesis", "AWS::KinesisAnalyticsV2",
  "AWS::KinesisFirehose", "AWS::Lambda", "AWS::MSK", "AWS::NetworkFirewall",
  "AWS::NetworkManager", "AWS::OpenSearch", "AWS::QuickSight", "AWS::RDS",
  "AWS::Redshift", "AWS::Route53", "AWS::Route53Resolver", "AWS::S3",
  "AWS::SES", "AWS::SNS", "AWS::SQS", "AWS::SSM", "AWS::SecretsManager",
  "AWS::ServiceDiscovery", "AWS::StepFunctions", "AWS::WAFv2"]

/-- `additional_approved_services` of `src/test.py` line 12, in source order
(the source lists `inspector2` twice; the duplicate is kept). -/
def additional_approved_services : List String := [
  "elasticloadbalancing", "acm-pca", "monitoring", "logs", "sts",
  "inspector2", "elasticfilesystem", "organizations", "schemas", "transfer",
  "inspector2", "resource-groups", "support", "rolesanywhere", "q", "fsx",
  "cloudshell", "signin"]

/-- Python `s.split(sep)` on character lists, by fuel recursion (fuel
`s.length` always suffices). Occurrences of `sep` are found left to right,
non-overlapping, exactly as in Python. -/
def pySplitAux (sep : List Char) : Nat → List Char → List Char →
    List (List Char)
  | 0, s, acc => [acc.reverse ++ s]
  | _ + 1, [], acc => [acc.reverse]
  | fuel + 1, c :: rest, acc =>
    if sep.isPrefixOf (c :: rest) then
      acc.reverse :: pySplitAux sep fuel (List.drop (sep.length - 1) rest) []
    else
      pySplitAux sep fuel rest (c :: acc)

/-- Python `s.split(sep)` on strings. -/
def pySplit (s sep : String) : List String :=
  (pySplitAux sep.data s.data.length s.data []).map String.mk

/-- Python `service.split("::")[1]` from `src/test.py` line 66. Every entry
of the catalog it is applied to contains exactly one `"::"`, so index 1 is
always present; out of range is mapped to `""`. -/
def pySecondField (s : String) : String :=
  (pySplit s "::").getD 1 ""

/-- Lines 62-66 of `src/test.py`:
`all_approved_services = additional_approved_services` makes the new name an
alias of the module-level list, and the loop
`for service in approved_services: all_approved_services.append(service.split("::")[1].lower())`
appends through that alias, so the module-level `additional_approved_services`
list itself grows. The function returns the final contents of
`additional_approved_services` (first component) and of
`all_approved_services` (second component); by the aliasing they are the
same list. -/
def buildAllApproved (additional approved : List String) :
    List String × List String :=
  let final := additional ++ approved.map (fun s => pyLower (pySecondField s))
  (final, final)

/-! Helper lemmas. -/

theorem isUpper_iff (c : Char) :
    c.isUpper = true ↔ 65 ≤ c.toNat ∧ c.toNat ≤ 90 := by
  simp [Char.isUpper, Char.toNat, UInt32.le_def, BitVec.le_def, UInt32.toNat]

theorem toLower_isUpper_false (c : Char) :
    (Char.toLower c).isUpper = false := by
  rw [Char.toLower]
  split
  · rename_i h
    obtain ⟨h1, h2⟩ := h
    rw [Bool.eq_false_iff]
    intro hu
    rw [isUpper_iff] at hu
    generalize hg : Char.toNat c = n at h1 h2 hu
    interval_cases n <;> revert hu <;> decide
  · rename_i h
    rw [Bool.eq_false_iff]
    intro hu
    rw [isUpper_iff] at hu
    exact h hu

/-- A string obtained by lower-casing every character differs from any string
containing an upper-case character. -/
theorem lowered_ne_of_any_upper (l : List Char) (e : String)
    (h : e.data.any Char.isUpper = true) :
    (⟨l.map Char.toLower⟩ : String) ≠ e := by
  intro heq
  have hdata : l.map Char.toLower = e.data := congrArg String.data heq
  rw [List.any_eq_true] at h
  obtain ⟨c, hc, hcu⟩ := h
  rw [← hdata] at hc
  rw [List.mem_map] at hc
  obtain ⟨c0, _, rfl⟩ := hc
  rw [toLower_isUpper_false] at hcu
  exact Bool.false_ne_true hcu

/-- `List.find?` returns the first element satisfying the predicate: the list
splits as a block of non-matching elements, the result, and a tail. -/
theorem find?_decomp {α : Type} (p : α → Bool) :
    ∀ (l : List α) (b : α), l.find? p = some b →
      ∃ l₁ l₂, l = l₁ ++ b :: l₂ ∧ (∀ a ∈ l₁, p a = false) ∧ p b = true := by
  intro l
  induction l with
  | nil => intro b h; simp [List.find?] at h
  | cons a t ih =>
    intro b h
    rw [List.find?] at h
    cases hp : p a with
    | true =>
      rw [hp] at h
      obtain rfl : a = b := by simpa using h
      exact ⟨[], t, rfl, by simp, hp⟩
    | false =>
      rw [hp] at h
      obtain ⟨l₁, l₂, rfl, hl₁, hb⟩ := ih b h
      exact ⟨a :: l₁, l₂, rfl, by
        intro x hx
        rcases List.mem_cons.mp hx with rfl | hx
        · exact hp
        · exact hl₁ x hx, hb⟩

/-- When the stripped lower-cased input hits no rule at all, the normalizer
returns that stripped lower-cased string (lines 117-118 of `newtest.py`). -/
theorem normalize_of_no_rule (s : String)
    (hx : findExactIn service_prefixes (stripLower s) = none)
    (hp : findStartIn service_prefixes (stripLower s) = none) :
    normalize_eventSource s = stripLower s := by
  unfold normalize_eventSource normalizeWith
  simp only []
  rw [hx, hp]

/-- Every non-header row of the result set lands, normalized, in the observed
set built by the ingestion loop. -/
theorem normalize_mem_ingest {rows : List String} {s : String}
    (hs : s ∈ rows) (hh : s ≠ "eventsource") :
    normalize_eventSource s ∈ ingest rows := by
  unfold ingest ingestWith
  rw [List.mem_toFinset, List.mem_map]
  refine ⟨s, ?_, rfl⟩
  rw [List.mem_filter]
  exact ⟨hs, by simpa using hh⟩

/-- An observed service outside the catalog lands in the `unapproved_in_use`
component of the report. -/
theorem mem_unapproved_of_not_approved {observed approvedSet : Finset String}
    {x : String} (hx : x ∈ observed) (hn : x ∉ approvedSet) :
    x ∈ (classify observed approvedSet).2.2 := by
  unfold classify
  simpa using ⟨hx, hn⟩

/-! Claim theorems. -/

/-- C1: for every ObservedServices set and ApprovedCatalog set, the
classifier of `newtest.py` lines 205-207 satisfies
approvedInUse = Observed ∩ Approved, unapprovedInUse = Observed − Approved,
approvedNotInUse = Approved − Observed, together with the union identities
approvedInUse ∪ approvedNotInUse = Approved,
approvedInUse ∪ unapprovedInUse = Observed, and pairwise disjointness of the
three output sets. -/
theorem classify_partition (observed approvedSet : Finset String) :
    (classify observed approvedSet).1 = observed ∩ approvedSet ∧
    (classify observed approvedSet).2.2 = observed \ approvedSet ∧
    (classify observed approvedSet).2.1 = approvedSet \ observed ∧
    (classify observed approvedSet).1 ∪ (classify observed approvedSet).2.1 =
      approvedSet ∧
    (classify observed approvedSet).1 ∩ (classify observed approvedSet).2.1 =
      ∅ ∧
    (classify observed approvedSet).1 ∪ (classify observed approvedSet).2.2 =
      observed ∧
    (classify observed approvedSet).1 ∩ (classify observed approvedSet).2.2 =
      ∅ ∧
    (classify observed approvedSet).2.1 ∩ (classify observed approvedSet).2.2 =
      ∅ := by
  unfold classify
  refine ⟨rfl, ?_, ?_, ?_, ?_, ?_, ?_, ?_⟩ <;>
    · ext x
      simp <;> tauto

/-- C2 (amended): with catalog {EC2, S3, Lambda} and observed raw inputs
ec2/sts/unknownsvc `.amazonaws.com`, where the rule table maps sts to IAM,
the pass yields approvedInUse = {EC2}, approvedNotInUse = {S3, Lambda}, and
unapprovedInUse = {IAM, unknownsvc}: the unmapped service is reported in its
lower-cased form `unknownsvc`, not capitalized as `Unknownsvc`. -/
theorem scenario_report :
    ("sts", "IAM") ∈ service_prefixes ∧
    classify (ingest ["ec2.amazonaws.com", "sts.amazonaws.com",
        "unknownsvc.amazonaws.com"])
      (["EC2", "S3", "Lambda"] : List String).toFinset =
    ((["EC2"] : List String).toFinset,
      (["S3", "Lambda"] : List String).toFinset,
      (["IAM", "unknownsvc"] : List String).toFinset) := by decide

/-- C2 counterexample: on the claim's own scenario, the computed
unapprovedInUse set is not {IAM, Unknownsvc} — the code never capitalizes
the unmapped service name. -/
theorem scenario_claim_false :
    (classify (ingest ["ec2.amazonaws.com", "sts.amazonaws.com",
        "unknownsvc.amazonaws.com"])
      (["EC2", "S3", "Lambda"] : List String).toFinset).2.2 ≠
    (["IAM", "Unknownsvc"] : List String).toFinset := by decide

/-- C3 (amended): when no exact-match rule and no prefix rule applies, the
normalizer returns the suffix-stripped, lower-cased input unchanged — it
does not remove hyphens and does not capitalize; in particular
normalize("totallynewservice.amazonaws.com") = "totallynewservice", a
non-empty name, and no error is possible. -/
theorem fallback_returns_stripped :
    (∀ s : String, findExactIn service_prefixes (stripLower s) = none →
      findStartIn service_prefixes (stripLower s) = none →
      normalize_eventSource s = stripLower s) ∧
    normalize_eventSource "totallynewservice.amazonaws.com" =
      "totallynewservice" ∧
    ("totallynewservice" : String) ≠ "" :=
  ⟨normalize_of_no_rule, by decide, by decide⟩

/-- C3 witness: the general fallback equation applied at a concrete
rule-free input. -/
theorem fallback_returns_stripped_witness :
    normalize_eventSource "zzz.amazonaws.com" =
      stripLower "zzz.amazonaws.com" :=
  fallback_returns_stripped.1 "zzz.amazonaws.com" (by decide) (by decide)

/-- C3 counterexample: the claimed default transform (capitalize first
character, remove hyphens) is not applied: the fallback result for the
claim's own example input keeps its lower-case first letter, and hyphens
survive the fallback. -/
theorem default_transform_false :
    normalize_eventSource "totallynewservice.amazonaws.com" ≠
      "Totallynewservice" ∧
    normalize_eventSource "zzz-zzz.amazonaws.com" = "zzz-zzz" := by decide

/-- C4 (amended): exact-match rules take precedence over prefix rules, and
among prefix rules the FIRST match in the table's (insertion) order wins,
not the longest: the matched rule is preceded in the table only by
non-matching rules.  Concretely, "acm-pca" itself is an exact key and maps
to ACMPCA, while "acm-pca2", which is matched by both the "acm" and the
"acm-pca" prefix rules, maps via the earlier-listed "acm" rule to ACM. -/
theorem rule_precedence :
    (∀ (s : String) (r : String × String),
      findExactIn service_prefixes (stripLower s) = some r →
      normalize_eventSource s = r.2) ∧
    (∀ (s : String) (r : String × String),
      findExactIn service_prefixes (stripLower s) = none →
      findStartIn service_prefixes (stripLower s) = some r →
      normalize_eventSource s = r.2 ∧
      ∃ l₁ l₂, service_prefixes = l₁ ++ r :: l₂ ∧
        (∀ q ∈ l₁, q.1.data.isPrefixOf (stripLower s).data = false) ∧
        r.1.data.isPrefixOf (stripLower s).data = true) ∧
    normalize_eventSource "acm-pca.amazonaws.com" = "ACMPCA" ∧
    normalize_eventSource "acm-pca2.amazonaws.com" = "ACM" := by
  refine ⟨?_, ?_, by decide, by decide⟩
  · intro s r hx
    unfold normalize_eventSource normalizeWith
    simp only []
    rw [hx]
  · intro s r hx hp
    constructor
    · unfold normalize_eventSource normalizeWith
      simp only []
      rw [hx, hp]
    · exact find?_decomp _ service_prefixes r hp

/-- C4 witness: exact precedence at "sts" (an exact key that is also hit by
the "sts" prefix rule), and first-match selection at "ec2messages" (matched
by the "ec2" prefix rule). -/
theorem rule_precedence_witness :
    normalize_eventSource "sts.amazonaws.com" = "IAM" ∧
    normalize_eventSource "ec2messages.amazonaws.com" = "EC2" :=
  ⟨rule_precedence.1 "sts.amazonaws.com" ("sts", "IAM") (by decide),
    (rule_precedence.2.1 "ec2messages.amazonaws.com" ("ec2", "EC2")
      (by decide) (by decide)).1⟩

/-- C4 counterexample: at input "acm-pca2.amazonaws.com" both the "acm" and
the longer "acm-pca" prefix rules match and no exact rule applies, yet the
normalizer returns ACM (the first-listed rule), not ACMPCA (the
longest-prefix rule), refuting the longest-match claim. -/
theorem longest_prefix_match_false :
    ("acm", "ACM") ∈ service_prefixes ∧
    ("acm-pca", "ACMPCA") ∈ service_prefixes ∧
    findExactIn service_prefixes (stripLower "acm-pca2.amazonaws.com") =
      none ∧
    "acm".data.isPrefixOf (stripLower "acm-pca2.amazonaws.com").data = true ∧
    "acm-pca".data.isPrefixOf (stripLower "acm-pca2.amazonaws.com").data =
      true ∧
    "acm".length < "acm-pca".length ∧
    normalize_eventSource "acm-pca2.amazonaws.com" = "ACM" ∧
    ("ACM" : String) ≠ "ACMPCA" := by decide

/-- C5 (amended): the normalizer lower-cases the input only AFTER removing
the literal suffix ".amazonaws.com" (line 106 strips case-sensitively, then
lower-cases), so its output depends only on the stripped lower-cased form;
hence inputs with identical stripped lower-cased forms — such as
"EC2.amazonaws.com" and "ec2.amazonaws.com" — normalize identically, but
inputs whose suffix itself differs in case need not. -/
theorem normalize_case_of_stripped :
    (∀ s t : String, stripLower s = stripLower t →
      normalize_eventSource s = normalize_eventSource t) ∧
    normalize_eventSource "EC2.amazonaws.com" =
      normalize_eventSource "ec2.amazonaws.com" := by
  constructor
  · intro s t h
    unfold normalize_eventSource normalizeWith
    rw [h]
  · decide

/-- C5 witness: the congruence applied at the concrete pair
"S3.amazonaws.com" / "s3.amazonaws.com". -/
theorem normalize_case_of_stripped_witness :
    normalize_eventSource "S3.amazonaws.com" =
      normalize_eventSource "s3.amazonaws.com" :=
  normalize_case_of_stripped.1 "S3.amazonaws.com" "s3.amazonaws.com"
    (by decide)

/-- C5 counterexample: "A.AMAZONAWS.COM" and "a.amazonaws.com" differ only
in letter case (their lower-casings coincide), yet they normalize
differently: the suffix is only stripped when it appears exactly as
".amazonaws.com", because the replace on line 106 runs before the lower. -/
theorem case_insensitive_false :
    pyLower "A.AMAZONAWS.COM" = pyLower "a.amazonaws.com" ∧
    normalize_eventSource "A.AMAZONAWS.COM" ≠
      normalize_eventSource "a.amazonaws.com" := by decide

/-- C6: `normalize_eventSource` is a total function on strings — every
input, of arbitrary case, with or without the domain suffix, with or
without hyphens, yields exactly one output string, and being a pure
function, repeated applications to the same input give the same output. -/
theorem normalize_total_deterministic (s : String) :
    ∃! r : String, normalize_eventSource s = r :=
  ⟨normalize_eventSource s, rfl, fun _ h => h.symm⟩

/-- C7 (amended): a raw string that normalizes to the empty CanonicalService
does not make the pass fail, but it is NOT skipped: lines 195-201 add every
normalized non-header row to the observed set, so the empty name is
classified like any other entry and (being outside the catalog) lands in
unapprovedInUse. -/
theorem empty_name_classified (rows : List String) (s : String)
    (hs : s ∈ rows) (hh : s ≠ "eventsource")
    (he : normalize_eventSource s = "") :
    normalize_eventSource s ∈
      (classify (ingest rows) approved_services_set).2.2 := by
  have hn : normalize_eventSource s ∉ approved_services_set := by
    rw [he]
    decide
  exact mem_unapproved_of_not_approved (normalize_mem_ingest hs hh) hn

/-- C7 witness: the raw input ".amazonaws.com" normalizes to "" and is
classified into unapprovedInUse. -/
theorem empty_name_classified_witness :
    normalize_eventSource ".amazonaws.com" ∈
      (classify (ingest [".amazonaws.com"]) approved_services_set).2.2 :=
  empty_name_classified [".amazonaws.com"] ".amazonaws.com" (by decide)
    (by decide) (by decide)

/-- C7 counterexample: the claim says an entry normalizing to "" appears in
none of the three report sets, but the code puts the empty name into the
unapprovedInUse component. -/
theorem malformed_not_skipped :
    normalize_eventSource ".amazonaws.com" = "" ∧
    "" ∈ (classify (ingest [".amazonaws.com"]) approved_services_set).2.2 := by
  decide

/-- C8: an empty observed raw sequence yields the degenerate report
(∅, ApprovedCatalog, ∅), and an empty catalog is also valid, yielding
(∅, ∅, ObservedServices); neither input makes the set algebra fail. -/
theorem classify_empty_inputs :
    (∀ approvedSet : Finset String,
      classify (ingest []) approvedSet = (∅, approvedSet, ∅)) ∧
    (∀ observed : Finset String,
      classify observed ∅ = (∅, ∅, observed)) := by
  constructor
  · intro a
    show classify ∅ a = (∅, a, ∅)
    unfold classify
    simp
  · intro o
    unfold classify
    simp

/-- C9 (amended): in `newtest.py` the classification pass (lines 194-207)
only reads the rule table and the catalog, so the pass leaves both tables
exactly as loaded; in `src/test.py`, however, the catalog-construction step
(lines 62-66) mutates the loaded `additional_approved_services` list in
place through the alias `all_approved_services`. -/
theorem newtest_tables_unchanged
    (tables : List (String × String) × List String) (rows : List String) :
    (newtestPass tables rows).1 = tables := rfl

/-- C9 counterexample: after `src/test.py` lines 62-66 run, the module-level
`additional_approved_services` list no longer holds its as-loaded contents —
the 55 lower-cased catalog names have been appended to it through the
alias. -/
theorem testpy_additional_mutated :
    (buildAllApproved additional_approved_services
        testpy_approved_services).1 ≠
      additional_approved_services := by decide

/-- C10: an input hit by no exact rule and no prefix rule normalizes to its
stripped lower-cased form, which contains no upper-case character; every
catalog entry contains an upper-case character, so such a fallback value is
never equal to a catalog entry: whenever it is observed it is classified
into unapprovedInUse and never into approvedInUse. -/
theorem fallback_never_approved (s : String)
    (hx : findExactIn service_prefixes (stripLower s) = none)
    (hp : findStartIn service_prefixes (stripLower s) = none) :
    normalize_eventSource s = stripLower s ∧
    normalize_eventSource s ∉ approved_services_set ∧
    ∀ rows : List String, s ∈ rows → s ≠ "eventsource" →
      normalize_eventSource s ∈
        (classify (ingest rows) approved_services_set).2.2 ∧
      normalize_eventSource s ∉
        (classify (ingest rows) approved_services_set).1 := by
  have hnorm := normalize_of_no_rule s hx hp
  have hupper : ∀ e ∈ approved_services, e.data.any Char.isUpper = true := by
    decide
  have hne : normalize_eventSource s ∉ approved_services_set := by
    rw [hnorm]
    rw [approved_services_set, List.mem_toFinset]
    intro hmem
    exact lowered_ne_of_any_upper (pyStripSuffix s).data (stripLower s)
      (hupper _ hmem) rfl
  refine ⟨hnorm, hne, ?_⟩
  intro rows hs hh
  refine ⟨mem_unapproved_of_not_approved (normalize_mem_ingest hs hh) hne, ?_⟩
  intro hin
  unfold classify at hin
  simp only [Finset.mem_inter] at hin
  exact hne hin.2

/-- C10 witness: the rule-free input "zzz.amazonaws.com" normalizes to a
non-approved name that is classified into unapprovedInUse. -/
theorem fallback_never_approved_witness :
    normalize_eventSource "zzz.amazonaws.com" ∈
      (classify (ingest ["zzz.amazonaws.com"]) approved_services_set).2.2 :=
  ((fallback_never_approved "zzz.amazonaws.com" (by decide) (by decide)).2.2
    ["zzz.amazonaws.com"] (by decide) (by decide)).1
